import Mathlib

/-!
Verification of the NeuroLearn content-to-schedule pipeline
(src/ai_studio_code.py) against its design specification.

Modelling conventions:
* Python strings are modelled as `List Char`; `pyReplace`, `pySplit` and
  `pyStrip` mirror Python's `str.replace`, `str.split` (non-empty separator)
  and `str.strip`.
* `datetime` values are modelled as integer day numbers, so
  `start_date + timedelta(days = n)` becomes integer addition; the
  `strftime` rendering of a date is presentation only and is not modelled.
* `json.loads` is modelled by `json_loads`, a strict recursive-descent
  parser for the JSON fragment the application's schema uses (objects,
  arrays, strings, integers, booleans, null); it fails on any leading or
  trailing non-whitespace text, as the Python parser does.
* Network calls are at the boundary: functions are modelled from the point
  where the external response text is in hand.
-/

/-- One row of the review schedule produced by `generate_schedule`
(lines 115-121 of src/ai_studio_code.py).  `date` is the day number
`start_date + interval`; `review_session` is `i + 1`. -/
structure ScheduleEntry where
  review_session : Nat
  date : Int
  interval : Nat
  method : String
  focus : String
deriving Repr, DecidableEq

/-- Line 93: the fixed spaced-repetition offset table. -/
def intervals : List Nat := [0, 1, 3, 7, 14, 30]

/-- Line 97: the standard ("easy") technique list. -/
def methods_easy : List String :=
  ["Review Summary", "Active Recall", "Practice Quiz", "Relate to other topics"]

/-- Line 98: the high-difficulty technique list. -/
def methods_hard : List String :=
  ["Feynman Technique", "Blurting Method", "Interleaved Practice", "Detailed Mind Map"]

/-- Line 100: `method_list = methods_hard if difficulty > 6 else methods_easy`. -/
def method_list (difficulty : Int) : List String :=
  if difficulty > 6 then methods_hard else methods_easy

/-- Lines 108-113: the focus label for session index `i`. -/
def focus_for (i : Nat) : String :=
  if i = 0 then "📥 Encoding: Break down and understand."
  else if i = 1 then "🧠 Retrieval: Force memory without notes."
  else "🏗️ Application: Use the knowledge."

/-- The loop body of lines 102-121: `i` is the running `enumerate` index,
the second list argument the remaining intervals.  The method is
`method_list[i % len(method_list)]` (line 106). -/
def schedule_rows (start_date : Int) (ml : List String) : Nat → List Nat → List ScheduleEntry
  | _, [] => []
  | i, interval :: rest =>
    { review_session := i + 1
      date := start_date + (interval : Int)
      interval := interval
      method := ml.getD (i % ml.length) ""
      focus := focus_for i } :: schedule_rows start_date ml (i + 1) rest

/-- Lines 90-123: `generate_schedule(start_date, difficulty)`.  The final
`pd.DataFrame` wrapper is presentation only; the row list is the content. -/
def generate_schedule (start_date : Int) (difficulty : Int) : List ScheduleEntry :=
  schedule_rows start_date (method_list difficulty) 0 intervals

/-- Default row used with `List.getD` when indexing a schedule. -/
def dummy_entry : ScheduleEntry :=
  { review_session := 0, date := 0, interval := 0, method := "", focus := "" }

/-- Line 78: the document text embedded in the prompt is `content_text[:20000]`. -/
def char_budget : Nat := 20000

/-- Line 78: the (possibly truncated) document text transmitted to the model. -/
def transmitted_content (content_text : List Char) : List Char :=
  content_text.take char_budget

/-- If `pat` is a prefix of the second list, return the rest; otherwise `none`. -/
def stripPre : List Char → List Char → Option (List Char)
  | [], s => some s
  | _ :: _, [] => none
  | p :: ps, c :: cs => if p = c then stripPre ps cs else none

/-- Fuel-indexed worker for `pyReplace`; the fuel starts at the input length,
which bounds the number of steps since every step consumes at least one
character. -/
def replaceFuel (pat repl : List Char) : Nat → List Char → List Char
  | _, [] => []
  | 0, s => s
  | fuel + 1, c :: cs =>
    match stripPre pat (c :: cs) with
    | some rest => repl ++ replaceFuel pat repl fuel rest
    | none => c :: replaceFuel pat repl fuel cs

/-- Python `s.replace(pat, repl)` for a non-empty pattern: replace every
non-overlapping occurrence, scanning left to right. -/
def pyReplace (s pat repl : List Char) : List Char :=
  if pat = [] then s else replaceFuel pat repl s.length s

/-- Fuel-indexed worker for `pySplit`; `acc` is the current chunk, reversed. -/
def splitFuel (sep : List Char) : Nat → List Char → List Char → List (List Char)
  | _, acc, [] => [acc.reverse]
  | 0, acc, s => [acc.reverse ++ s]
  | fuel + 1, acc, c :: cs =>
    match stripPre sep (c :: cs) with
    | some rest => acc.reverse :: splitFuel sep fuel [] rest
    | none => splitFuel sep fuel (c :: acc) cs

/-- Python `s.split(sep)` for a non-empty separator: split at every
non-overlapping occurrence, scanning left to right.  Python's `sep in s`
holds exactly when the result has at least two parts. -/
def pySplit (s sep : List Char) : List (List Char) :=
  splitFuel sep s.length [] s

/-- The characters removed by Python's default `str.strip`. -/
def py_whitespace : List Char := [' ', '\t', '\n', '\r', '\x0b', '\x0c']

/-- Python `s.strip()`: drop leading and trailing whitespace. -/
def pyStrip (s : List Char) : List Char :=
  ((s.dropWhile (fun c => py_whitespace.contains c)).reverse.dropWhile
    (fun c => py_whitespace.contains c)).reverse

/-- Lines 41-46 of `get_youtube_transcript`: extract the video identifier.
`if "v=" in url` takes `url.split("v=")[1].split("&")[0]`; `elif
"youtu.be/" in url` takes `url.split("youtu.be/")[1]`; otherwise the
function returns the invalid-URL error, modelled as `none`. -/
def get_video_id (url : List Char) : Option (List Char) :=
  if 2 ≤ (pySplit url ("v=".toList)).length then
    some ((pySplit ((pySplit url ("v=".toList)).getD 1 []) ("&".toList)).getD 0 [])
  else if 2 ≤ (pySplit url ("youtu.be/".toList)).length then
    some ((pySplit url ("youtu.be/".toList)).getD 1 [])
  else
    none

/-- JSON values, as produced by `json.loads` on the fragment the
application's schema uses (numbers restricted to integers, which is all
the schema contains). -/
inductive Json where
  | null
  | bool (b : Bool)
  | num (n : Int)
  | str (s : List Char)
  | arr (elems : List Json)
  | obj (fields : List (List Char × Json))
deriving Repr, Inhabited

/-- Skip JSON whitespace (space, tab, newline, carriage return). -/
def skipWs : List Char → List Char
  | [] => []
  | c :: cs => if c = ' ' ∨ c = '\t' ∨ c = '\n' ∨ c = '\r' then skipWs cs else c :: cs

/-- Parse the body of a JSON string after its opening quote, handling the
basic escapes; returns the decoded characters and the rest of the input. -/
def parseStr : Nat → List Char → Option (List Char × List Char)
  | _, [] => none
  | 0, _ => none
  | fuel + 1, c :: cs =>
    if c = '"' then some ([], cs)
    else if c = '\\' then
      match cs with
      | d :: ds =>
        match parseStr fuel ds with
        | some (s, rest) =>
          some ((if d = 'n' then '\n' else if d = 't' then '\t' else d) :: s, rest)
        | none => none
      | [] => none
    else
      match parseStr fuel cs with
      | some (s, rest) => some (c :: s, rest)
      | none => none

/-- Take the maximal leading run of decimal digits. -/
def takeDigits : List Char → List Char × List Char
  | [] => ([], [])
  | c :: cs =>
    if c.isDigit then
      ((takeDigits cs).1.cons c, (takeDigits cs).2)
    else ([], c :: cs)

/-- Decimal value of a digit run. -/
def digitsToNat (l : List Char) : Nat :=
  l.foldl (fun a c => a * 10 + (c.toNat - 48)) 0

/-- Parse a JSON integer (optional leading minus, then at least one digit). -/
def parseNum : List Char → Option (Int × List Char)
  | [] => none
  | c :: cs =>
    if c = '-' then
      match takeDigits cs with
      | ([], _) => none
      | (ds, rest) => some (-(digitsToNat ds : Int), rest)
    else
      match takeDigits (c :: cs) with
      | ([], _) => none
      | (ds, rest) => some ((digitsToNat ds : Int), rest)

mutual

/-- Parse one JSON value; the fuel bounds nesting and is decremented on
every recursive call. -/
def parseValue : Nat → List Char → Option (Json × List Char)
  | 0, _ => none
  | fuel + 1, input =>
    match skipWs input with
    | [] => none
    | c :: cs =>
      if c = '"' then
        match parseStr (cs.length + 1) cs with
        | some (s, rest) => some (Json.str s, rest)
        | none => none
      else if c = '\x7b' then
        match skipWs cs with
        | d :: ds =>
          if d = '\x7d' then some (Json.obj [], ds)
          else
            match parseMembers fuel (d :: ds) with
            | some (fields, rest) => some (Json.obj fields, rest)
            | none => none
        | [] => none
      else if c = '[' then
        match skipWs cs with
        | d :: ds =>
          if d = ']' then some (Json.arr [], ds)
          else
            match parseElems fuel (d :: ds) with
            | some (elems, rest) => some (Json.arr elems, rest)
            | none => none
        | [] => none
      else if c = 't' then
        match stripPre ("rue".toList) cs with
        | some rest => some (Json.bool true, rest)
        | none => none
      else if c = 'f' then
        match stripPre ("alse".toList) cs with
        | some rest => some (Json.bool false, rest)
        | none => none
      else if c = 'n' then
        match stripPre ("ull".toList) cs with
        | some rest => some (Json.null, rest)
        | none => none
      else
        match parseNum (c :: cs) with
        | some (n, rest) => some (Json.num n, rest)
        | none => none

/-- Parse the members of a JSON object after its opening brace (at least
one member; the empty object is handled in `parseValue`). -/
def parseMembers : Nat → List Char → Option (List (List Char × Json) × List Char)
  | 0, _ => none
  | fuel + 1, input =>
    match skipWs input with
    | [] => none
    | c :: cs =>
      if c = '"' then
        match parseStr (cs.length + 1) cs with
        | some (key, rest1) =>
          match skipWs rest1 with
          | d :: rest2 =>
            if d = ':' then
              match parseValue fuel rest2 with
              | some (v, rest3) =>
                match skipWs rest3 with
                | e :: rest4 =>
                  if e = ',' then
                    match parseMembers fuel rest4 with
                    | some (fields, rest5) => some ((key, v) :: fields, rest5)
                    | none => none
                  else if e = '\x7d' then some ([(key, v)], rest4)
                  else none
                | [] => none
              | none => none
            else none
          | [] => none
        | none => none
      else none

/-- Parse the elements of a JSON array after its opening bracket (at least
one element; the empty array is handled in `parseValue`). -/
def parseElems : Nat → List Char → Option (List Json × List Char)
  | 0, _ => none
  | fuel + 1, input =>
    match parseValue fuel input with
    | some (v, rest1) =>
      match skipWs rest1 with
      | e :: rest2 =>
        if e = ',' then
          match parseElems fuel rest2 with
          | some (elems, rest3) => some (v :: elems, rest3)
          | none => none
        else if e = ']' then some ([v], rest2)
        else none
      | [] => none
    | none => none

end

/-- Model of Python's `json.loads`: parse one value and require that only
whitespace remains; any leftover text is an error ("Extra data"), as is any
parse failure.  The fuel `length + 1` suffices because every recursive call
consumes at least one character first. -/
def json_loads (s : List Char) : Option Json :=
  match parseValue (s.length + 1) s with
  | some (j, rest) => if skipWs rest = [] then some j else none
  | none => none

/-- The code-fence markers removed on line 84. -/
def code_fence_json : List Char := "```json".toList

/-- The plain code-fence marker removed on line 84. -/
def code_fence : List Char := "```".toList

/-- Line 84: `response.text.replace("```json", "").replace("```", "")`. -/
def clean_response (t : List Char) : List Char :=
  pyReplace (pyReplace t code_fence_json []) code_fence []

/-- Lines 82-88 of `analyze_with_gemini`, from the point where the model's
response text is in hand: clean the text, then `json.loads` it; any
exception is caught and the function returns `None` (modelled `none`). -/
def analyze_response (response_text : List Char) : Option Json :=
  json_loads (clean_response response_text)

/-- Follows the specification's words, for comparison with the code (claim
C4): after stripping code-fence delimiters, extract exactly the substring
from the first open brace to the last close brace inclusive; `none` when
no brace is present. -/
def clean_response_spec (t : List Char) : Option (List Char) :=
  match (clean_response t).findIdx? (fun c => c = '\x7b'),
        (clean_response t).reverse.findIdx? (fun c => c = '\x7d') with
  | some i, some jr =>
    some (((clean_response t).take ((clean_response t).length - jr)).drop i)
  | _, _ => none

/-- Lines 132-134 and 165: the pipeline is gated on `if not api_key:
st.stop()`, and an external call (`analyze_with_gemini`) is attempted only
when the gate passed, content is present and the button was pressed.
Python's `not api_key` on a string is true exactly for the empty string. -/
def external_call_attempted (api_key : List Char) (has_content button_pressed : Bool) : Bool :=
  if api_key = [] then false
  else has_content && button_pressed

/-- The resolver's failure outcome. -/
inductive ResolveError where
  | NoCandidateWorks
deriving Repr, DecidableEq

/-- Modelled from the spec: the ModelResolver component is not part of this
source file (line 59 hardcodes a single model identifier); section 4.2 of
the specification describes probe-based discovery: iterate a priority list
of candidate identifiers, attempt one trivial generation call for each
(`probe c = true` meaning candidate `c` answered successfully), select the
first success, and fail with `NoCandidateWorks` when every candidate
failed. -/
def probe_resolve (probe : String → Bool) : List String → Except ResolveError String
  | [] => Except.error ResolveError.NoCandidateWorks
  | c :: cs => if probe c then Except.ok c else probe_resolve probe cs

/-- Modelled from the spec: session-cached resolution; the resolution
result is cached for the session and subsequent calls reuse it without
re-probing.  The second component is the session cache after the call. -/
def resolve (probe : String → Bool) (candidates : List String) (cached : Option String) :
    Except ResolveError String × Option String :=
  match cached with
  | some m => (Except.ok m, some m)
  | none =>
    match probe_resolve probe candidates with
    | Except.ok m => (Except.ok m, some m)
    | Except.error e => (Except.error e, none)

/-- C1: for every start date and every difficulty score in 1..10,
`generate_schedule` returns exactly 6 entries, the offset-days sequence is
the fixed table [0, 1, 3, 7, 14, 30] regardless of the difficulty value,
and each entry's date equals the start date plus that entry's offset in
days. -/
theorem c1_offsets_and_dates (start_date difficulty : Int)
    (h1 : 1 ≤ difficulty) (h2 : difficulty ≤ 10) :
    (generate_schedule start_date difficulty).length = 6 ∧
    (generate_schedule start_date difficulty).map (fun e => e.interval) = [0, 1, 3, 7, 14, 30] ∧
    ∀ e ∈ generate_schedule start_date difficulty, e.date = start_date + (e.interval : Int) := by
  unfold generate_schedule method_list
  split <;>
  · refine ⟨rfl, rfl, ?_⟩
    intro e he
    simp only [schedule_rows, intervals, List.mem_cons, List.not_mem_nil, or_false] at he
    rcases he with h | h | h | h | h | h <;> subst h <;> rfl

/-- Witness for C1 at start date 0 and difficulty 5. -/
theorem c1_offsets_and_dates_witness :
    (1 : Int) ≤ 5 ∧ (5 : Int) ≤ 10 ∧
    ((generate_schedule 0 5).length = 6 ∧
     (generate_schedule 0 5).map (fun e => e.interval) = [0, 1, 3, 7, 14, 30] ∧
     ∀ e ∈ generate_schedule 0 5, e.date = 0 + (e.interval : Int)) :=
  ⟨by norm_num, by norm_num, c1_offsets_and_dates 0 5 (by norm_num) (by norm_num)⟩

/-- C3: for every start date, every difficulty above 6 selects the
high-difficulty technique list and every difficulty at most 6 selects the
standard list (observed through the method column of the generated
schedule, which cycles the selected list). -/
theorem c3_branch_selection (start_date s : Int) :
    (6 < s → (generate_schedule start_date s).map (fun e => e.method) =
      ["Feynman Technique", "Blurting Method", "Interleaved Practice", "Detailed Mind Map",
       "Feynman Technique", "Blurting Method"]) ∧
    (s ≤ 6 → (generate_schedule start_date s).map (fun e => e.method) =
      ["Review Summary", "Active Recall", "Practice Quiz", "Relate to other topics",
       "Review Summary", "Active Recall"]) := by
  constructor <;> intro h
  · rw [generate_schedule, method_list, if_pos h]; rfl
  · rw [generate_schedule, method_list, if_neg (not_lt.mpr h)]; rfl

/-- Witness for C3 at difficulties 7 (high branch) and 6 (standard branch). -/
theorem c3_branch_selection_witness :
    (generate_schedule 0 7).map (fun e => e.method) =
      ["Feynman Technique", "Blurting Method", "Interleaved Practice", "Detailed Mind Map",
       "Feynman Technique", "Blurting Method"] ∧
    (generate_schedule 0 6).map (fun e => e.method) =
      ["Review Summary", "Active Recall", "Practice Quiz", "Relate to other topics",
       "Review Summary", "Active Recall"] :=
  ⟨(c3_branch_selection 0 7).1 (by norm_num), (c3_branch_selection 0 6).2 (by norm_num)⟩

/-- C7 counterexample: both technique lists in the code have exactly 4
entries, not 6 as the claim states. -/
theorem c7_list_length_counterexample :
    methods_easy.length = 4 ∧ methods_hard.length = 4 ∧
    methods_easy.length ≠ 6 ∧ methods_hard.length ≠ 6 := by decide

/-- C7 amended: both technique lists have exactly 4 entries, and for every
session index i in 0..5 the technique assigned to session i equals
`list[i mod len(list)]` for the selected list. -/
theorem c7_method_cycling (start_date difficulty : Int) (i : Nat) (hi : i < 6) :
    (method_list difficulty).length = 4 ∧
    ((generate_schedule start_date difficulty).getD i dummy_entry).method =
      (method_list difficulty).getD (i % (method_list difficulty).length) "" := by
  unfold generate_schedule method_list
  split <;>
  · refine ⟨rfl, ?_⟩
    interval_cases i <;> rfl

/-- Witness for C7 at session index 4, where the cycling wraps around. -/
theorem c7_method_cycling_witness :
    (4 : Nat) < 6 ∧
    ((method_list 8).length = 4 ∧
     ((generate_schedule 0 8).getD 4 dummy_entry).method =
       (method_list 8).getD (4 % (method_list 8).length) "") :=
  ⟨by norm_num, c7_method_cycling 0 8 4 (by norm_num)⟩

/-- C10: for every start date and difficulty, the schedule's session
indices are exactly 1..6 in ascending order and its dates are strictly
increasing, so no two review sessions fall on the same day and the
sequence is sorted chronologically. -/
theorem c10_sessions_sorted (start_date difficulty : Int) :
    (generate_schedule start_date difficulty).map (fun e => e.review_session) =
      [1, 2, 3, 4, 5, 6] ∧
    List.Pairwise (fun a b => a < b)
      ((generate_schedule start_date difficulty).map (fun e => e.date)) := by
  unfold generate_schedule method_list
  split <;>
  · refine ⟨rfl, ?_⟩
    simp only [schedule_rows, intervals, List.map_cons, List.map_nil, List.pairwise_cons,
      List.mem_cons, List.not_mem_nil, or_false, List.Pairwise.nil, and_true]
    norm_num

/-- C9: the document text transmitted to the model is truncated to a fixed
character budget in the 20,000-25,000 range (here 20,000) by keeping
exactly the prefix of that length; inputs at or below the budget are sent
unchanged. -/
theorem c9_truncation (content_text : List Char) :
    20000 ≤ char_budget ∧ char_budget ≤ 25000 ∧
    transmitted_content content_text <+: content_text ∧
    (transmitted_content content_text).length = min content_text.length char_budget ∧
    (content_text.length ≤ char_budget → transmitted_content content_text = content_text) := by
  refine ⟨le_refl _, by norm_num [char_budget], List.take_prefix _ _, ?_,
    fun h => List.take_of_length_le h⟩
  simp [transmitted_content, Nat.min_comm]

/-- Witness for C9 on a two-character document, which is below the budget
and therefore sent unchanged. -/
theorem c9_truncation_witness :
    (['a', 'b'] : List Char).length ≤ char_budget ∧
    transmitted_content ['a', 'b'] = ['a', 'b'] :=
  ⟨by decide, (c9_truncation ['a', 'b']).2.2.2.2 (by decide)⟩

/-- C8 counterexample: the credential " " strips to the empty string, yet
the gate (line 132, `if not api_key`) lets it through, so an external call
can be attempted with a whitespace-only credential. -/
theorem c8_gate_counterexample :
    pyStrip (" ".toList) = [] ∧ external_call_attempted (" ".toList) true true = true := by
  decide

/-- C8 amended: the pipeline is gated on a non-empty credential with no
whitespace stripping: whenever an external call is attempted, the
credential is not the empty string (but it may be whitespace-only). -/
theorem c8_gate_nonempty (api_key : List Char) (has_content button_pressed : Bool)
    (h : external_call_attempted api_key has_content button_pressed = true) :
    api_key ≠ [] := by
  intro hk
  subst hk
  simp [external_call_attempted] at h

/-- Witness for C8's amended statement at the one-character credential "k". -/
theorem c8_gate_nonempty_witness :
    external_call_attempted ("k".toList) true true = true ∧ ("k".toList : List Char) ≠ [] :=
  ⟨by decide, c8_gate_nonempty ("k".toList) true true (by decide)⟩

/-- C2 counterexample: the model response consisting of the JSON object
with the single field difficulty_score = 11 parses successfully, and the
analyze operation returns it as a (partially-populated, out-of-range)
result instead of the InvalidResponse error outcome (`none`). -/
theorem c2_schema_counterexample :
    clean_response ("\x7b\"difficulty_score\": 11\x7d".toList) =
      "\x7b\"difficulty_score\": 11\x7d".toList ∧
    analyze_response ("\x7b\"difficulty_score\": 11\x7d".toList) =
      some (Json.obj [("difficulty_score".toList, Json.num 11)]) ∧
    (some (Json.obj [("difficulty_score".toList, Json.num 11)]) : Option Json) ≠ none :=
  ⟨rfl, rfl, fun h => Option.noConfusion h⟩

/-- C2 amended: the analyze operation performs no schema validation: a
response whose cleaned text parses as JSON is returned as parsed even when
difficulty_score is missing or equals 11; the error outcome arises only
from a parse failure. -/
theorem c2_no_schema_validation :
    analyze_response ("\x7b\"summary\": \"s\"\x7d".toList) =
      some (Json.obj [("summary".toList, Json.str ("s".toList))]) ∧
    analyze_response ("\x7b\"difficulty_score\": 11, \"summary\": \"s\"\x7d".toList) =
      some (Json.obj [("difficulty_score".toList, Json.num 11),
                      ("summary".toList, Json.str ("s".toList))]) ∧
    analyze_response ("not json".toList) = none :=
  ⟨rfl, rfl, rfl⟩

/-- C4 counterexample: on the response "noise {"a": 1}" (braces written
here in words), the spec-described cleaning extracts the brace-delimited
substring, which parses to a JSON object, while the code performs no brace
extraction: its cleaning leaves the text unchanged and the parse of the
whole text fails, so the operation returns `none` rather than the parse of
the extracted substring. -/
theorem c4_brace_extraction_counterexample :
    clean_response ("noise \x7b\"a\": 1\x7d".toList) = "noise \x7b\"a\": 1\x7d".toList ∧
    clean_response_spec ("noise \x7b\"a\": 1\x7d".toList) = some ("\x7b\"a\": 1\x7d".toList) ∧
    json_loads ("\x7b\"a\": 1\x7d".toList) = some (Json.obj [("a".toList, Json.num 1)]) ∧
    analyze_response ("noise \x7b\"a\": 1\x7d".toList) = none :=
  ⟨rfl, rfl, rfl, rfl⟩

/-- C4 amended: the analyze operation cleans the raw response only by
deleting the code-fence delimiters, and the parsed result is the
structured parse of the entire cleaned text; no first-brace-to-last-brace
extraction is applied, so non-fence text outside the object makes the call
fail. -/
theorem c4_fence_stripping_only :
    clean_response ("```json\x7b\"a\": 1\x7d```".toList) = "\x7b\"a\": 1\x7d".toList ∧
    analyze_response ("```json\x7b\"a\": 1\x7d```".toList) =
      some (Json.obj [("a".toList, Json.num 1)]) ∧
    analyze_response ("prefixed \x7b\"a\": 1\x7d".toList) = none :=
  ⟨rfl, rfl, rfl⟩

/-- C6: the video-URL ingestion extracts "abc123" from the watch?v= form,
extracts "abc123" from the youtu.be short form, and fails with the
invalid-URL error (modelled `none`) on an input matching neither shape. -/
theorem c6_url_recognition :
    get_video_id ("https://x/watch?v=abc123&t=5".toList) = some ("abc123".toList) ∧
    get_video_id ("https://youtu.be/abc123".toList) = some ("abc123".toList) ∧
    get_video_id ("not a url".toList) = none :=
  ⟨rfl, rfl, rfl⟩

/-- C5: if every candidate in the probe list fails, resolve returns the
NoCandidateWorks error and never a model identifier; a successful probe
result is written to the session cache; and a call with a cached
resolution returns the cached model without re-probing (the probe function
is not consulted, so the result is independent of it). -/
theorem c5_resolver_exhaustion_and_cache (probe probe2 : String → Bool)
    (candidates : List String) (m : String) :
    ((∀ c ∈ candidates, probe c = false) →
      (resolve probe candidates none).1 = Except.error ResolveError.NoCandidateWorks) ∧
    (probe_resolve probe candidates = Except.ok m →
      resolve probe candidates none = (Except.ok m, some m)) ∧
    resolve probe2 candidates (some m) = (Except.ok m, some m) := by
  refine ⟨fun hall => ?_, fun hok => ?_, rfl⟩
  · have hfail : probe_resolve probe candidates = Except.error ResolveError.NoCandidateWorks := by
      induction candidates with
      | nil => rfl
      | cons c cs ih =>
        rw [probe_resolve, if_neg (by simp [hall c (List.mem_cons_self c cs)])]
        exact ih fun d hd => hall d (List.mem_cons_of_mem c hd)
    simp [resolve, hfail]
  · simp [resolve, hok]

/-- Witness for C5: with a probe that fails on both candidates, resolve
reports NoCandidateWorks; with a cached resolution, the cached identifier
is returned unchanged. -/
theorem c5_resolver_witness :
    (resolve (fun _ => false) ["gemini-1.5-flash", "gemini-pro"] none).1 =
      Except.error ResolveError.NoCandidateWorks ∧
    resolve (fun _ => true) ["gemini-1.5-flash", "gemini-pro"] (some "gemini-1.5-flash") =
      (Except.ok "gemini-1.5-flash", some "gemini-1.5-flash") :=
  ⟨(c5_resolver_exhaustion_and_cache (fun _ => false) (fun _ => true)
      ["gemini-1.5-flash", "gemini-pro"] "gemini-1.5-flash").1 (by intro c _; rfl),
   (c5_resolver_exhaustion_and_cache (fun _ => false) (fun _ => true)
      ["gemini-1.5-flash", "gemini-pro"] "gemini-1.5-flash").2.2⟩
